import Mathlib

/-!
Verification of the engagement state-tracking core of the engage_tracker
repository: a shallow embedding of src/detection/engagement_logic.py,
src/detection/video_processor.py and src/utils/landmark_utils.py, together
with theorems settling the specification claims about them.

Times are modelled as rationals (the source reads time.time() once per update
call; here the reading is an explicit parameter).  Counters are naturals.
The logging callback of the source is modelled by returning the list of
events emitted by the call next to the updated state.
-/

namespace EngageTracker

/-- Configuration constants imported by engagement_logic.py via
"from config import *" (config.py itself is not part of the analysed
sources, so the constants stay symbolic). -/
structure Config where
  EAR_THRESHOLD : ℚ
  EAR_CONSEC_FRAMES_CLOSED : ℕ
  MAR_THRESHOLD : ℚ
  MAR_CONSEC_FRAMES_OPEN : ℕ
  FATIGUE_BLINK_WINDOW_SECONDS : ℚ
  FATIGUE_BLINK_COUNT : ℕ
  FATIGUE_BLINK_COOLDOWN_SECONDS : ℚ
  FATIGUE_YAWN_WINDOW_SECONDS : ℚ
  FATIGUE_YAWN_COUNT : ℕ
  FATIGUE_YAWN_COOLDOWN_SECONDS : ℚ
  ATTENTION_CONSISTENCY_SECONDS : ℚ
  ATTENTION_YAW_THRESHOLD : ℚ
  PITCH_FOCUSED_MIN_ABS_THRESHOLD : ℚ
  HAND_RAISE_COOLDOWN_SECONDS : ℚ
  HAND_MOVEMENT_COOLDOWN_SECONDS : ℚ
  HAND_MOVEMENT_WINDOW_FRAMES : ℚ
  HAND_MOVEMENT_STD_THRESHOLD : ℚ
  VIDEO_FPS_TARGET : ℚ
deriving DecidableEq

/-- Events as passed to the logging callback:
logger(event_type=..., description=..., timestamp=now). -/
structure Event where
  event_type : String
  description : String
  timestamp : ℚ
deriving DecidableEq

/-- Mutable state of an EngagementLogic instance (engagement_logic.py,
constructor lines).  Deques of timestamps are lists ordered oldest first,
matching collections.deque used with append / popleft. -/
structure LogicState where
  _current_attention_state : String
  _distraction_start_time : ℚ
  last_logged_attention_state : String
  hand_events_deque : List ℚ
  hand_cooldown_end_time : ℚ
  last_hand_raised_log_time : ℚ
  yawn_events_deque : List ℚ
  yawn_cooldown_end_time : ℚ
  blink_events_deque : List ℚ
  blink_cooldown_end_time : ℚ
  _is_eye_closed : Bool
  _frames_eye_closed : ℕ
  _is_mouth_open : Bool
  _frames_mouth_open : ℕ
deriving DecidableEq

/-- Initial state set by EngagementLogic.__init__. -/
def initState : LogicState where
  _current_attention_state := "Focused"
  _distraction_start_time := 0
  last_logged_attention_state := "Focused"
  hand_events_deque := []
  hand_cooldown_end_time := 0
  last_hand_raised_log_time := 0
  yawn_events_deque := []
  yawn_cooldown_end_time := 0
  blink_events_deque := []
  blink_cooldown_end_time := 0
  _is_eye_closed := false
  _frames_eye_closed := 0
  _is_mouth_open := false
  _frames_mouth_open := 0

/-- Front pruning loop shared by the three detectors:
"while deque and now - deque[0] > window: deque.popleft()". -/
def pruneOld (window now : ℚ) : List ℚ → List ℚ
  | [] => []
  | t :: rest => if now - t > window then pruneOld window now rest else t :: rest

/-- Description built by EngagementLogic.update_attention lines 47-55 at the
Distracted to Logged_Distraction transition.  The parameter names current_yaw
and current_pitch are the callee's own names (see update_attention's
signature); what the orchestrator actually passes in those positions is a
separate question settled by the C1 theorems. -/
def attention_log_description (cfg : Config) (current_yaw current_pitch : ℚ) : String :=
  let direction := if |current_yaw| > cfg.ATTENTION_YAW_THRESHOLD then "sideways" else ""
  let direction :=
    if |current_pitch| < cfg.PITCH_FOCUSED_MIN_ABS_THRESHOLD then
      if current_pitch > 0 then
        (if direction = "" then "down" else direction ++ " and down")
      else
        (if direction = "" then "up" else direction ++ " and up")
    else direction
  if direction = "" then "Distracted" else "Distracted (looking " ++ direction ++ ")"

/-- EngagementLogic.update_attention (engagement_logic.py lines 35-63),
returning the updated state and the events logged during the call. -/
def update_attention (cfg : Config) (s : LogicState) (now : ℚ)
    (is_currently_focused : Bool) (current_yaw current_pitch : ℚ) :
    LogicState × List Event :=
  if s._current_attention_state = "Focused" then
    if is_currently_focused then (s, [])
    else
      ({ s with _distraction_start_time := now,
                _current_attention_state := "Distracted" }, [])
  else if s._current_attention_state = "Distracted" then
    if is_currently_focused then
      ({ s with _current_attention_state := "Focused" }, [])
    else
      if now - s._distraction_start_time ≥ cfg.ATTENTION_CONSISTENCY_SECONDS then
        let log_description := attention_log_description cfg current_yaw current_pitch
        ({ s with last_logged_attention_state := log_description,
                  _current_attention_state := "Logged_Distraction" },
         [⟨"Attention", log_description, now⟩])
      else (s, [])
  else if s._current_attention_state = "Logged_Distraction" then
    if is_currently_focused then
      ({ s with last_logged_attention_state := "Focused",
                _current_attention_state := "Focused" },
       [⟨"Attention", "Focused", now⟩])
    else (s, [])
  else (s, [])

/-- EngagementLogic.detect_and_register_blink (engagement_logic.py
lines 65-83). -/
def detect_and_register_blink (cfg : Config) (s : LogicState) (now : ℚ)
    (ear : ℚ) : LogicState × List Event :=
  if now < s.blink_cooldown_end_time then (s, [])
  else if ear < cfg.EAR_THRESHOLD then
    let frames := s._frames_eye_closed + 1
    let closed :=
      if ¬ s._is_eye_closed ∧ frames ≥ cfg.EAR_CONSEC_FRAMES_CLOSED then true
      else s._is_eye_closed
    ({ s with _frames_eye_closed := frames, _is_eye_closed := closed }, [])
  else
    if s._is_eye_closed then
      if s._frames_eye_closed ≥ cfg.EAR_CONSEC_FRAMES_CLOSED then
        let deq := pruneOld cfg.FATIGUE_BLINK_WINDOW_SECONDS now
          (s.blink_events_deque ++ [now])
        if deq.length ≥ cfg.FATIGUE_BLINK_COUNT then
          ({ s with blink_events_deque := deq,
                    blink_cooldown_end_time := now + cfg.FATIGUE_BLINK_COOLDOWN_SECONDS,
                    _is_eye_closed := false, _frames_eye_closed := 0 },
           [⟨"Fatigue", "Blink: tired fatigue", now⟩])
        else
          ({ s with blink_events_deque := deq,
                    _is_eye_closed := false, _frames_eye_closed := 0 }, [])
      else ({ s with _is_eye_closed := false, _frames_eye_closed := 0 }, [])
    else ({ s with _frames_eye_closed := 0 }, [])

/-- EngagementLogic.detect_and_register_yawn (engagement_logic.py
lines 85-103). -/
def detect_and_register_yawn (cfg : Config) (s : LogicState) (now : ℚ)
    (mar : ℚ) : LogicState × List Event :=
  if now < s.yawn_cooldown_end_time then (s, [])
  else if mar > cfg.MAR_THRESHOLD then
    let frames := s._frames_mouth_open + 1
    let opened :=
      if ¬ s._is_mouth_open ∧ frames ≥ cfg.MAR_CONSEC_FRAMES_OPEN then true
      else s._is_mouth_open
    ({ s with _frames_mouth_open := frames, _is_mouth_open := opened }, [])
  else
    if s._is_mouth_open then
      if s._frames_mouth_open ≥ cfg.MAR_CONSEC_FRAMES_OPEN then
        let deq := pruneOld cfg.FATIGUE_YAWN_WINDOW_SECONDS now
          (s.yawn_events_deque ++ [now])
        if deq.length ≥ cfg.FATIGUE_YAWN_COUNT then
          ({ s with yawn_events_deque := deq,
                    yawn_cooldown_end_time := now + cfg.FATIGUE_YAWN_COOLDOWN_SECONDS,
                    _is_mouth_open := false, _frames_mouth_open := 0 },
           [⟨"Fatigue", "Yawning", now⟩])
        else
          ({ s with yawn_events_deque := deq,
                    _is_mouth_open := false, _frames_mouth_open := 0 }, [])
      else ({ s with _is_mouth_open := false, _frames_mouth_open := 0 }, [])
    else ({ s with _frames_mouth_open := 0 }, [])

/-- EngagementLogic.register_hand_event (engagement_logic.py lines 105-119). -/
def register_hand_event (cfg : Config) (s : LogicState) (now : ℚ)
    (is_hand_raised_now : Bool) (hand_positions_std : ℚ) :
    LogicState × List Event :=
  if is_hand_raised_now ∧ now - s.last_hand_raised_log_time > cfg.HAND_RAISE_COOLDOWN_SECONDS then
    ({ s with last_hand_raised_log_time := now,
              hand_cooldown_end_time := now + cfg.HAND_MOVEMENT_COOLDOWN_SECONDS },
     [⟨"Hand Motion", "Hand Raised", now⟩])
  else if now < s.hand_cooldown_end_time then (s, [])
  else
    let window := cfg.HAND_MOVEMENT_WINDOW_FRAMES / cfg.VIDEO_FPS_TARGET
    let deq := pruneOld window now (s.hand_events_deque ++ [now])
    if (deq.length : ℚ) ≥ window * 1 ∧ hand_positions_std > cfg.HAND_MOVEMENT_STD_THRESHOLD then
      ({ s with hand_events_deque := deq,
                hand_cooldown_end_time := now + cfg.HAND_MOVEMENT_COOLDOWN_SECONDS },
       [⟨"Hand Motion", "Hand Detected", now⟩])
    else ({ s with hand_events_deque := deq }, [])

/-- One update call of the engagement engine, tagged by which of the four
public methods was invoked. -/
inductive Op where
  | att (is_currently_focused : Bool) (current_yaw current_pitch : ℚ)
  | blink (ear : ℚ)
  | yawn (mar : ℚ)
  | hand (is_hand_raised_now : Bool) (hand_positions_std : ℚ)
deriving DecidableEq

/-- Dispatch one operation at clock reading now. -/
def stepOp (cfg : Config) (s : LogicState) (now : ℚ) : Op → LogicState × List Event
  | Op.att f y p => update_attention cfg s now f y p
  | Op.blink ear => detect_and_register_blink cfg s now ear
  | Op.yawn mar => detect_and_register_yawn cfg s now mar
  | Op.hand r std => register_hand_event cfg s now r std

/-- Run a sequence of timed operations, concatenating the logged events. -/
def runOps (cfg : Config) (s : LogicState) : List (ℚ × Op) → LogicState × List Event
  | [] => (s, [])
  | (t, op) :: rest =>
    let r := stepOp cfg s t op
    let r2 := runOps cfg r.1 rest
    (r2.1, r.2 ++ r2.2)

/-- Outcome of the external OpenCV calls inside get_head_pose: the
convergence flag returned by cv2.solvePnP, and the Euler angles produced by
cv2.Rodrigues followed by cv2.RQDecomp3x3 on whatever rotation vector
solvePnP handed back. -/
structure PnPOutcome where
  success : Bool
  angles : ℚ × ℚ × ℚ
deriving DecidableEq

/-- get_head_pose (landmark_utils.py lines 20-50) with the OpenCV solver
abstracted as an input.  The source unpacks the success flag of solvePnP but
never branches on it: it unconditionally runs Rodrigues and RQDecomp3x3 and
returns angles[0], angles[1], angles[2]. -/
def get_head_pose (outcome : PnPOutcome) : ℚ × ℚ × ℚ :=
  outcome.angles

/-- Attention part of VideoProcessor.process_frame_bytes when a face is
present (video_processor.py lines 69-72): pitch, yaw, roll are unpacked from
get_head_pose, the focus test is abs(yaw) <= 25 and abs(pitch) >= 90, and
update_attention is invoked as update_attention(is_currently_focused, pitch,
yaw) - so pitch lands in the callee's current_yaw position and yaw in its
current_pitch position, exactly as at the source call site. -/
def face_attention_step (cfg : Config) (s : LogicState) (now : ℚ)
    (outcome : PnPOutcome) : LogicState × List Event :=
  let pyr := get_head_pose outcome
  let pitch := pyr.1
  let yaw := pyr.2.1
  let is_currently_focused : Bool := decide (|yaw| ≤ 25 ∧ |pitch| ≥ 90)
  update_attention cfg s now is_currently_focused pitch yaw

/-- Append to a collections.deque with a maxlen: a full deque drops its
oldest element (hand_y_positions has maxlen 90). -/
def dequeAppend (maxlen : ℕ) (l : List ℚ) (x : ℚ) : List ℚ :=
  if l.length = maxlen then l.tail ++ [x] else l ++ [x]

/-- Population variance as computed by numpy: np.std(l) is the nonnegative
square root of this value. -/
def npVariance (l : List ℚ) : ℚ :=
  let n : ℚ := l.length
  let mean := l.sum / n
  (l.map (fun x => (x - mean) ^ 2)).sum / n

/-- Hand-label part of VideoProcessor.process_frame_bytes
(video_processor.py lines 88-106) for the single hand that
mp.solutions.hands.Hands(max_num_hands=1) can return.  Inputs: whether a
face was found this frame, the eye-level y coordinate (lm[33].y+lm[263].y)/2
when a face is present, the wrist y of the detected hand (none when no hand
was found), and the current hand_y_positions buffer.  Returns the
instantaneous hand label, the is_hand_raised_now flag and the updated
buffer.  The source compares np.std(buffer) > 0.04; since np.std is the
nonnegative square root of npVariance, that comparison holds exactly when
npVariance exceeds 0.04 squared, which is the decidable form used here. -/
def hand_processing (facePresent : Bool) (eye_y : ℚ) (hand : Option ℚ)
    (buf : List ℚ) : String × Bool × List ℚ :=
  match hand with
  | none => ("No Hand Detected", false, buf)
  | some wrist_y =>
    let eye_y_norm := if facePresent then eye_y else 1/2
    let raised := wrist_y < eye_y_norm * (2/5)
    let label1 := if raised then "Hand Raised" else "No Hand Detected"
    let buf2 := dequeAppend 90 buf wrist_y
    if buf2.length = 90 then
      if npVariance buf2 > (1/25) ^ 2 then ("Hand Detected", raised, buf2)
      else (label1, raised, buf2)
    else (label1, raised, buf2)

/-- Event drain at the end of VideoProcessor.process_frame_bytes
(video_processor.py lines 110-113): the per-frame result carries the whole
logger buffer (the buffer held at entry plus the events appended during the
call), and the buffer is then reset to empty.  Returns (events_logged,
new buffer). -/
def frame_drain (buf newly : List Event) : List Event × List Event :=
  (buf ++ newly, [])

/-- Iterate frame_drain over the per-frame lists of newly logged events,
collecting each frame result's events_logged field. -/
def run_frames (buf : List Event) : List (List Event) → List (List Event) × List Event
  | [] => ([], buf)
  | n :: rest =>
    let r := frame_drain buf n
    let r2 := run_frames r.2 rest
    (r.1 :: r2.1, r2.2)

/-- Concrete configuration used by the evaluation theorems below. -/
def cfgA : Config where
  EAR_THRESHOLD := 1/5
  EAR_CONSEC_FRAMES_CLOSED := 2
  MAR_THRESHOLD := 3/5
  MAR_CONSEC_FRAMES_OPEN := 2
  FATIGUE_BLINK_WINDOW_SECONDS := 30
  FATIGUE_BLINK_COUNT := 3
  FATIGUE_BLINK_COOLDOWN_SECONDS := 60
  FATIGUE_YAWN_WINDOW_SECONDS := 60
  FATIGUE_YAWN_COUNT := 2
  FATIGUE_YAWN_COOLDOWN_SECONDS := 60
  ATTENTION_CONSISTENCY_SECONDS := 2
  ATTENTION_YAW_THRESHOLD := 20
  PITCH_FOCUSED_MIN_ABS_THRESHOLD := 20
  HAND_RAISE_COOLDOWN_SECONDS := 10
  HAND_MOVEMENT_COOLDOWN_SECONDS := 5
  HAND_MOVEMENT_WINDOW_FRAMES := 90
  HAND_MOVEMENT_STD_THRESHOLD := 1/25
  VIDEO_FPS_TARGET := 30

/-- C1: evaluation of the code at the failing input.  Head pose
pitch = 30, yaw = 0 on both frames; the claim (and the spec) say the
emitted description must be plain "Distracted" here, since the yaw is 0
(no sideways annotation) and the pitch magnitude 30 is not below the
pitch threshold 20 (no up/down annotation).  The code instead passes
(pitch, yaw) into the (current_yaw, current_pitch) parameters, so it tests
the pitch against ATTENTION_YAW_THRESHOLD and the yaw against
PITCH_FOCUSED_MIN_ABS_THRESHOLD and emits
"Distracted (looking sideways and up)". -/
theorem C1_swapped_args_eval :
    (face_attention_step cfgA
        (face_attention_step cfgA initState 0 ⟨true, (30, 0, 0)⟩).1
        5 ⟨true, (30, 0, 0)⟩).2 =
      [⟨"Attention", "Distracted (looking sideways and up)", 5⟩] := by
  norm_num [face_attention_step, get_head_pose, update_attention,
    attention_log_description, cfgA, initState]
  decide

/-- C3 counterexample: on a frame whose perspective-n-point solve does not
converge (success = false), get_head_pose still returns the decomposed
angles rather than failing, and the orchestrator still runs attention
classification: starting from the initial Focused state, the frame moves the
attention state to Distracted instead of leaving it unchanged. -/
theorem C3_no_skip_counterexample :
    get_head_pose ⟨false, (30, 0, 0)⟩ = (30, 0, 0) ∧
    (face_attention_step cfgA initState 0 ⟨false, (30, 0, 0)⟩).1._current_attention_state
      = "Distracted" ∧
    initState._current_attention_state = "Focused" := by
  refine ⟨rfl, ?_, rfl⟩
  norm_num [face_attention_step, get_head_pose, update_attention, initState]

/-- C3 amended: get_head_pose ignores the solver's convergence flag - on a
non-convergent solve it returns the decomposed angles exactly as on a
convergent one, and the orchestrator performs attention classification
unconditionally, behaving identically whether or not the solve converged. -/
theorem C3_pose_ignores_convergence (angles : ℚ × ℚ × ℚ) (cfg : Config)
    (s : LogicState) (now : ℚ) :
    get_head_pose ⟨false, angles⟩ = angles ∧
    face_attention_step cfg s now ⟨false, angles⟩ =
      face_attention_step cfg s now ⟨true, angles⟩ :=
  ⟨rfl, rfl⟩

/-- Hand-position buffer used by the C4 evaluation theorems: 89 samples,
45 at 0 and 44 at 1, so that appending one more sample at 1 fills the
90-slot buffer with 45 zeros and 45 ones, whose variance 1/4 far exceeds
the squared motion threshold. -/
def bufC4 : List ℚ :=
  List.replicate 45 0 ++ List.replicate 44 1

/-- Helper evaluation: the C4 buffer append fills the buffer. -/
lemma bufC4_len : (dequeAppend 90 bufC4 1).length = 90 := by
  norm_num [dequeAppend, bufC4]

/-- Helper evaluation: variance of the filled C4 buffer. -/
lemma bufC4_var : npVariance (dequeAppend 90 bufC4 1) = 1/4 := by
  norm_num [npVariance, dequeAppend, bufC4, List.sum_append, List.map_append,
    List.map_replicate, List.sum_replicate, nsmul_eq_mul]

/-- C4 counterexample: with a face at eye level 3, a wrist at 1 (raised,
since 1 < 0.4 * 3) and a buffer that becomes full with variance above the
squared motion threshold, the frame's hand label is "Hand Detected", not
"Hand Raised": the motion branch runs after the raised branch and
overwrites it, so the raised condition does not override "Hand Detected". -/
theorem C4_label_counterexample :
    ((1 : ℚ) < 3 * (2/5)) ∧
    (dequeAppend 90 bufC4 1).length = 90 ∧
    npVariance (dequeAppend 90 bufC4 1) > (1/25) ^ 2 ∧
    (hand_processing true 3 (some 1) bufC4).1 = "Hand Detected" := by
  refine ⟨by norm_num, bufC4_len, by rw [bufC4_var]; norm_num, ?_⟩
  have hv : npVariance (dequeAppend 90 bufC4 1) > (1/25) ^ 2 := by
    rw [bufC4_var]; norm_num
  simp only [hand_processing]
  rw [if_pos bufC4_len, if_pos hv]

/-- C4 amended: in every frame in which both the raised condition triggers
and the full hand-position buffer's standard deviation exceeds the motion
threshold, the hand label is "Hand Detected" (the motion condition
overwrites "Hand Raised"); the is_hand_raised_now flag passed on to
register_hand_event is still true. -/
theorem C4_detected_overrides_raised (facePresent : Bool) (eye_y wrist_y : ℚ)
    (buf : List ℚ)
    (hr : wrist_y < (if facePresent then eye_y else 1/2) * (2/5))
    (hl : (dequeAppend 90 buf wrist_y).length = 90)
    (hv : npVariance (dequeAppend 90 buf wrist_y) > (1/25) ^ 2) :
    (hand_processing facePresent eye_y (some wrist_y) buf).1 = "Hand Detected" ∧
    (hand_processing facePresent eye_y (some wrist_y) buf).2.1 = true := by
  simp only [hand_processing]
  rw [if_pos hl, if_pos hv]
  exact ⟨rfl, decide_eq_true hr⟩

/-- C4 amended, witness: the amended theorem applied at the concrete input
of the counterexample buffer. -/
theorem C4_detected_overrides_raised_witness :
    ((1 : ℚ) < (if true then (3 : ℚ) else 1/2) * (2/5)) ∧
    (dequeAppend 90 bufC4 1).length = 90 ∧
    npVariance (dequeAppend 90 bufC4 1) > (1/25) ^ 2 ∧
    ((hand_processing true 3 (some 1) bufC4).1 = "Hand Detected" ∧
      (hand_processing true 3 (some 1) bufC4).2.1 = true) :=
  ⟨by norm_num, bufC4_len, by rw [bufC4_var]; norm_num,
    C4_detected_overrides_raised true 3 1 bufC4 (by norm_num) bufC4_len
      (by rw [bufC4_var]; norm_num)⟩

/-- C7: event delivery is drain-exactly-once.  Starting from an empty drain
buffer, every frame result returns precisely the events newly logged during
that frame (so a frame that logs nothing returns an empty list, and each
logged event occurrence appears in exactly one frame result), the buffer is
empty after every frame, and draining again with nothing newly logged
returns the empty list. -/
theorem C7_drain_exactly_once :
    (∀ frames : List (List Event), run_frames [] frames = (frames, [])) ∧
    (∀ buf newly : List Event, (frame_drain (frame_drain buf newly).2 []).1 = []) := by
  constructor
  · intro frames
    induction frames with
    | nil => rfl
    | cons n rest ih =>
      simp [run_frames, frame_drain, ih]
  · intro buf newly
    rfl

/-- C5: detect_and_register_blink is a debounced falling-edge detector.
Conjuncts, for every configuration, state and call:
(1) during a cooldown the call does nothing at all (no counting, recording
or emission);
(2) outside a cooldown, a closed frame (ear below EAR_THRESHOLD) increments
the closed-frame counter, emits nothing, leaves the timestamps alone, and
the eye is marked closed exactly when it already was or the counter has
reached EAR_CONSEC_FRAMES_CLOSED;
(3) outside a cooldown, an open frame while marked closed with the
consecutive-frame minimum met records the blink timestamp now, prunes
timestamps older than FATIGUE_BLINK_WINDOW_SECONDS, and if the pruned count
reaches FATIGUE_BLINK_COUNT emits exactly one Fatigue "Blink: tired
fatigue" event, starts the cooldown now + FATIGUE_BLINK_COOLDOWN_SECONDS,
and every call strictly before that instant is a no-op;
(4) if the pruned count stays short, nothing is emitted and the cooldown is
not started;
(5) every open frame outside a cooldown resets the closed-frame counter and
clears the closed mark. -/
theorem C5_blink_detector (cfg : Config) (s : LogicState) (now ear : ℚ) :
    (now < s.blink_cooldown_end_time →
      detect_and_register_blink cfg s now ear = (s, [])) ∧
    (¬ now < s.blink_cooldown_end_time → ear < cfg.EAR_THRESHOLD →
      (detect_and_register_blink cfg s now ear).2 = [] ∧
      (detect_and_register_blink cfg s now ear).1._frames_eye_closed
        = s._frames_eye_closed + 1 ∧
      ((detect_and_register_blink cfg s now ear).1._is_eye_closed = true ↔
        (s._is_eye_closed = true ∨
          s._frames_eye_closed + 1 ≥ cfg.EAR_CONSEC_FRAMES_CLOSED)) ∧
      (detect_and_register_blink cfg s now ear).1.blink_events_deque
        = s.blink_events_deque ∧
      (detect_and_register_blink cfg s now ear).1.blink_cooldown_end_time
        = s.blink_cooldown_end_time) ∧
    (¬ now < s.blink_cooldown_end_time → ¬ ear < cfg.EAR_THRESHOLD →
      s._is_eye_closed = true →
      s._frames_eye_closed ≥ cfg.EAR_CONSEC_FRAMES_CLOSED →
      (pruneOld cfg.FATIGUE_BLINK_WINDOW_SECONDS now
          (s.blink_events_deque ++ [now])).length ≥ cfg.FATIGUE_BLINK_COUNT →
      detect_and_register_blink cfg s now ear =
        ({ s with blink_events_deque :=
                    pruneOld cfg.FATIGUE_BLINK_WINDOW_SECONDS now
                      (s.blink_events_deque ++ [now]),
                  blink_cooldown_end_time := now + cfg.FATIGUE_BLINK_COOLDOWN_SECONDS,
                  _is_eye_closed := false, _frames_eye_closed := 0 },
         [⟨"Fatigue", "Blink: tired fatigue", now⟩]) ∧
      (∀ t' ear', t' < now + cfg.FATIGUE_BLINK_COOLDOWN_SECONDS →
        detect_and_register_blink cfg
          (detect_and_register_blink cfg s now ear).1 t' ear' =
          ((detect_and_register_blink cfg s now ear).1, []))) ∧
    (¬ now < s.blink_cooldown_end_time → ¬ ear < cfg.EAR_THRESHOLD →
      s._is_eye_closed = true →
      s._frames_eye_closed ≥ cfg.EAR_CONSEC_FRAMES_CLOSED →
      ¬ (pruneOld cfg.FATIGUE_BLINK_WINDOW_SECONDS now
          (s.blink_events_deque ++ [now])).length ≥ cfg.FATIGUE_BLINK_COUNT →
      detect_and_register_blink cfg s now ear =
        ({ s with blink_events_deque :=
                    pruneOld cfg.FATIGUE_BLINK_WINDOW_SECONDS now
                      (s.blink_events_deque ++ [now]),
                  _is_eye_closed := false, _frames_eye_closed := 0 }, [])) ∧
    (¬ now < s.blink_cooldown_end_time → ¬ ear < cfg.EAR_THRESHOLD →
      (detect_and_register_blink cfg s now ear).1._is_eye_closed = false ∧
      (detect_and_register_blink cfg s now ear).1._frames_eye_closed = 0) := by
  refine ⟨?_, ?_, ?_, ?_, ?_⟩
  · intro h
    simp [detect_and_register_blink, h]
  · intro h he
    simp only [detect_and_register_blink, if_neg h, if_pos he]
    refine ⟨by trivial, by trivial, ?_, by trivial, by trivial⟩
    by_cases hc : s._is_eye_closed = true
    · simp [hc]
    · simp only [Bool.not_eq_true] at hc
      by_cases hf : s._frames_eye_closed + 1 ≥ cfg.EAR_CONSEC_FRAMES_CLOSED
      · simp [hc, hf]
      · simp [hc, hf]
  · intro h he hc hf hcnt
    have hmain : detect_and_register_blink cfg s now ear =
        ({ s with blink_events_deque :=
                    pruneOld cfg.FATIGUE_BLINK_WINDOW_SECONDS now
                      (s.blink_events_deque ++ [now]),
                  blink_cooldown_end_time := now + cfg.FATIGUE_BLINK_COOLDOWN_SECONDS,
                  _is_eye_closed := false, _frames_eye_closed := 0 },
         [⟨"Fatigue", "Blink: tired fatigue", now⟩]) := by
      simp only [detect_and_register_blink, if_neg h, if_neg he, hc, if_pos hf,
        if_pos hcnt, if_true]
    refine ⟨hmain, ?_⟩
    intro t' ear' ht'
    rw [hmain]
    simp [detect_and_register_blink, ht']
  · intro h he hc hf hcnt
    simp only [detect_and_register_blink, if_neg h, if_neg he, hc, if_pos hf,
      if_neg hcnt, if_true]
  · intro h he
    simp only [detect_and_register_blink, if_neg h, if_neg he]
    by_cases hc : s._is_eye_closed = true
    · by_cases hf : s._frames_eye_closed ≥ cfg.EAR_CONSEC_FRAMES_CLOSED
      · by_cases hcnt : (pruneOld cfg.FATIGUE_BLINK_WINDOW_SECONDS now
            (s.blink_events_deque ++ [now])).length ≥ cfg.FATIGUE_BLINK_COUNT
        · simp [hc, hf, hcnt]
        · simp [hc, hf, hcnt]
      · simp [hc, hf]
    · simp only [Bool.not_eq_true] at hc
      simp [hc]

/-- C5 witness: the blink-detector theorem applied at concrete inputs
exercising the cooldown, closed-frame and emitting branches. -/
theorem C5_blink_detector_witness :
    ((5 : ℚ) < ({ initState with blink_cooldown_end_time := 10 } : LogicState).blink_cooldown_end_time ∧
      detect_and_register_blink cfgA { initState with blink_cooldown_end_time := 10 } 5 0 =
        ({ initState with blink_cooldown_end_time := 10 }, [])) ∧
    ((detect_and_register_blink cfgA initState 5 0).2 = [] ∧
      (detect_and_register_blink cfgA initState 5 0).1._frames_eye_closed
        = initState._frames_eye_closed + 1) ∧
    (detect_and_register_blink cfgA
        { initState with _is_eye_closed := true, _frames_eye_closed := 2,
                         blink_events_deque := [3, 4] } 5 1 =
      ({ initState with _is_eye_closed := false, _frames_eye_closed := 0,
                        blink_events_deque :=
                          pruneOld cfgA.FATIGUE_BLINK_WINDOW_SECONDS 5 ([3, 4] ++ [5]),
                        blink_cooldown_end_time := 5 + cfgA.FATIGUE_BLINK_COOLDOWN_SECONDS },
       [⟨"Fatigue", "Blink: tired fatigue", 5⟩])) := by
  refine ⟨⟨by norm_num [initState], ?_⟩, ?_, ?_⟩
  · exact (C5_blink_detector cfgA { initState with blink_cooldown_end_time := 10 } 5 0).1
      (by norm_num [initState])
  · have h := ((C5_blink_detector cfgA initState 5 0).2.1
      (by norm_num [initState]) (by norm_num [initState, cfgA]))
    exact ⟨h.1, h.2.1⟩
  · have h := ((C5_blink_detector cfgA
      { initState with _is_eye_closed := true, _frames_eye_closed := 2,
                       blink_events_deque := [3, 4] } 5 1).2.2.1
      (by norm_num [initState]) (by norm_num [cfgA]) rfl
      (by norm_num [cfgA]) (by norm_num [cfgA, pruneOld]))
    exact h.1

/-- C6: a call to register_hand_event with is_hand_raised_now = true made
after more than HAND_RAISE_COOLDOWN_SECONDS since the last raise emits
exactly one "Hand Motion"/"Hand Raised" event in that same call, updates
the last-raise time to now, starts the motion cooldown
now + HAND_MOVEMENT_COOLDOWN_SECONDS, and any not-raised call strictly
inside that cooldown emits nothing (in particular no "Hand Detected"). -/
theorem C6_hand_raised_immediate (cfg : Config) (s : LogicState) (now std : ℚ)
    (h : now - s.last_hand_raised_log_time > cfg.HAND_RAISE_COOLDOWN_SECONDS) :
    register_hand_event cfg s now true std =
      ({ s with last_hand_raised_log_time := now,
                hand_cooldown_end_time := now + cfg.HAND_MOVEMENT_COOLDOWN_SECONDS },
       [⟨"Hand Motion", "Hand Raised", now⟩]) ∧
    (∀ t' std', t' < now + cfg.HAND_MOVEMENT_COOLDOWN_SECONDS →
      register_hand_event cfg
        { s with last_hand_raised_log_time := now,
                 hand_cooldown_end_time := now + cfg.HAND_MOVEMENT_COOLDOWN_SECONDS }
        t' false std' =
        ({ s with last_hand_raised_log_time := now,
                  hand_cooldown_end_time := now + cfg.HAND_MOVEMENT_COOLDOWN_SECONDS },
         [])) := by
  constructor
  · simp [register_hand_event, h]
  · intro t' std' ht'
    simp [register_hand_event, ht']

/-- C6 witness: a raise at time 20 with HAND_RAISE_COOLDOWN_SECONDS = 10
elapsed since the initial last-raise time 0. -/
theorem C6_hand_raised_immediate_witness :
    ((20 : ℚ) - initState.last_hand_raised_log_time > cfgA.HAND_RAISE_COOLDOWN_SECONDS) ∧
    (register_hand_event cfgA initState 20 true 0 =
      ({ initState with last_hand_raised_log_time := 20,
                        hand_cooldown_end_time := 20 + cfgA.HAND_MOVEMENT_COOLDOWN_SECONDS },
       [⟨"Hand Motion", "Hand Raised", 20⟩]) ∧
     (∀ t' std', t' < 20 + cfgA.HAND_MOVEMENT_COOLDOWN_SECONDS →
        register_hand_event cfgA
          { initState with last_hand_raised_log_time := 20,
                           hand_cooldown_end_time := 20 + cfgA.HAND_MOVEMENT_COOLDOWN_SECONDS }
          t' false std' =
          ({ initState with last_hand_raised_log_time := 20,
                            hand_cooldown_end_time := 20 + cfgA.HAND_MOVEMENT_COOLDOWN_SECONDS },
           []))) :=
  ⟨by norm_num [initState, cfgA],
    C6_hand_raised_immediate cfgA initState 20 0 (by norm_num [initState, cfgA])⟩

/-- Attention-state literals are pairwise distinct. -/
lemma distracted_ne_focused : ("Distracted" : String) ≠ "Focused" := by decide

/-- Attention-state literals are pairwise distinct. -/
lemma logged_ne_focused : ("Logged_Distraction" : String) ≠ "Focused" := by decide

/-- Attention-state literals are pairwise distinct. -/
lemma logged_ne_distracted : ("Logged_Distraction" : String) ≠ "Distracted" := by decide

/-- Focused state, not focused: start the distraction clock, no event. -/
lemma ua_focused_false (cfg : Config) (s : LogicState) (now y p : ℚ)
    (hs : s._current_attention_state = "Focused") :
    update_attention cfg s now false y p =
      ({ s with _distraction_start_time := now,
                _current_attention_state := "Distracted" }, []) := by
  simp [update_attention, hs]

/-- Distracted state, not focused, below the consistency window: no change. -/
lemma ua_distracted_false_short (cfg : Config) (s : LogicState) (now y p : ℚ)
    (hs : s._current_attention_state = "Distracted")
    (hd : ¬ now - s._distraction_start_time ≥ cfg.ATTENTION_CONSISTENCY_SECONDS) :
    update_attention cfg s now false y p = (s, []) := by
  simp [update_attention, hs, distracted_ne_focused, hd]

/-- Distracted state, not focused, consistency window met: log once and move
to Logged_Distraction. -/
lemma ua_distracted_false_long (cfg : Config) (s : LogicState) (now y p : ℚ)
    (hs : s._current_attention_state = "Distracted")
    (hd : now - s._distraction_start_time ≥ cfg.ATTENTION_CONSISTENCY_SECONDS) :
    update_attention cfg s now false y p =
      ({ s with last_logged_attention_state := attention_log_description cfg y p,
                _current_attention_state := "Logged_Distraction" },
       [⟨"Attention", attention_log_description cfg y p, now⟩]) := by
  simp [update_attention, hs, distracted_ne_focused, hd]

/-- Distracted state, focused again: silent return to Focused. -/
lemma ua_distracted_true (cfg : Config) (s : LogicState) (now y p : ℚ)
    (hs : s._current_attention_state = "Distracted") :
    update_attention cfg s now true y p =
      ({ s with _current_attention_state := "Focused" }, []) := by
  simp [update_attention, hs, distracted_ne_focused]

/-- Logged_Distraction state, not focused: no self-transition, no event. -/
lemma ua_logged_false (cfg : Config) (s : LogicState) (now y p : ℚ)
    (hs : s._current_attention_state = "Logged_Distraction") :
    update_attention cfg s now false y p = (s, []) := by
  simp [update_attention, hs, logged_ne_focused, logged_ne_distracted]

/-- Logged_Distraction state, focused: emit the Focused event and return. -/
lemma ua_logged_true (cfg : Config) (s : LogicState) (now y p : ℚ)
    (hs : s._current_attention_state = "Logged_Distraction") :
    update_attention cfg s now true y p =
      ({ s with last_logged_attention_state := "Focused",
                _current_attention_state := "Focused" },
       [⟨"Attention", "Focused", now⟩]) := by
  simp [update_attention, hs, logged_ne_focused, logged_ne_distracted]

/-- Every description logged at the Distracted to Logged_Distraction
transition begins with "Distracted". -/
lemma attention_log_description_starts (cfg : Config) (y p : ℚ) :
    ∃ r, attention_log_description cfg y p = "Distracted" ++ r := by
  unfold attention_log_description
  by_cases c1 : |y| > cfg.ATTENTION_YAW_THRESHOLD <;>
    by_cases c2 : |p| < cfg.PITCH_FOCUSED_MIN_ABS_THRESHOLD <;>
      by_cases c3 : p > 0 <;>
        simp only [c1, c2, c3, if_true, if_false, ite_true, ite_false] <;>
          first
          | exact ⟨"", by decide⟩
          | exact ⟨" (looking sideways)", by decide⟩
          | exact ⟨" (looking down)", by decide⟩
          | exact ⟨" (looking up)", by decide⟩
          | exact ⟨" (looking sideways and down)", by decide⟩
          | exact ⟨" (looking sideways and up)", by decide⟩

/-- Timed update_attention calls with a fixed focus flag, as runOps input. -/
def attOps (focused : Bool) (l : List (ℚ × ℚ × ℚ)) : List (ℚ × Op) :=
  l.map (fun x => (x.1, Op.att focused x.2.1 x.2.2))

/-- In the Distracted state, a run of not-focused calls that all stay below
the consistency window leaves the state untouched and logs nothing. -/
lemma run_att_false_short (cfg : Config) (s : LogicState)
    (hs : s._current_attention_state = "Distracted") (l : List (ℚ × ℚ × ℚ))
    (hall : ∀ x ∈ l, ¬ x.1 - s._distraction_start_time ≥ cfg.ATTENTION_CONSISTENCY_SECONDS) :
    runOps cfg s (attOps false l) = (s, []) := by
  induction l with
  | nil => rfl
  | cons x rest ih =>
    have hstep := ua_distracted_false_short cfg s x.1 x.2.1 x.2.2 hs
      (hall x (List.mem_cons_self x rest))
    simp only [attOps, List.map_cons, runOps, stepOp, hstep]
    have := ih (fun z hz => hall z (List.mem_cons_of_mem x hz))
    simp only [attOps] at this
    simp [this]

/-- In the Logged_Distraction state, any run of not-focused calls is silent. -/
lemma run_att_false_logged (cfg : Config) (s : LogicState)
    (hs : s._current_attention_state = "Logged_Distraction") (l : List (ℚ × ℚ × ℚ)) :
    runOps cfg s (attOps false l) = (s, []) := by
  induction l with
  | nil => rfl
  | cons x rest ih =>
    have hstep := ua_logged_false cfg s x.1 x.2.1 x.2.2 hs
    simp only [attOps, List.map_cons, runOps, stepOp, hstep]
    simp only [attOps] at ih
    simp [ih]

/-- In the Distracted state, a run of not-focused calls one of which meets
the consistency window logs exactly one "Distracted..." Attention event and
ends in Logged_Distraction. -/
lemma run_att_false_logs_once (cfg : Config) (s : LogicState)
    (hs : s._current_attention_state = "Distracted") (l : List (ℚ × ℚ × ℚ))
    (hex : ∃ x ∈ l, x.1 - s._distraction_start_time ≥ cfg.ATTENTION_CONSISTENCY_SECONDS) :
    ∃ s' e, runOps cfg s (attOps false l) = (s', [e]) ∧
      e.event_type = "Attention" ∧ (∃ r, e.description = "Distracted" ++ r) ∧
      s'._current_attention_state = "Logged_Distraction" := by
  induction l with
  | nil => exact absurd hex (by simp)
  | cons x rest ih =>
    by_cases hd : x.1 - s._distraction_start_time ≥ cfg.ATTENTION_CONSISTENCY_SECONDS
    · have hstep := ua_distracted_false_long cfg s x.1 x.2.1 x.2.2 hs hd
      have hrest := run_att_false_logged cfg
        ({ s with last_logged_attention_state := attention_log_description cfg x.2.1 x.2.2,
                  _current_attention_state := "Logged_Distraction" }) rfl rest
      refine ⟨{ s with last_logged_attention_state := attention_log_description cfg x.2.1 x.2.2,
                       _current_attention_state := "Logged_Distraction" },
        ⟨"Attention", attention_log_description cfg x.2.1 x.2.2, x.1⟩, ?_, rfl,
        attention_log_description_starts cfg x.2.1 x.2.2, rfl⟩
      simp only [attOps, List.map_cons, runOps, stepOp, hstep]
      simp only [attOps] at hrest
      simp [hrest]
    · have hstep := ua_distracted_false_short cfg s x.1 x.2.1 x.2.2 hs hd
      have hex' : ∃ z ∈ rest, z.1 - s._distraction_start_time ≥ cfg.ATTENTION_CONSISTENCY_SECONDS := by
        rcases hex with ⟨z, hz, hzd⟩
        rcases List.mem_cons.mp hz with rfl | hz'
        · exact absurd hzd hd
        · exact ⟨z, hz', hzd⟩
      rcases ih hex' with ⟨s', e, hrun, he1, he2, he3⟩
      refine ⟨s', e, ?_, he1, he2, he3⟩
      simp only [attOps, List.map_cons, runOps, stepOp, hstep]
      simp only [attOps] at hrun
      simp [hrun]

/-- Splitting a run over list concatenation. -/
lemma runOps_append (cfg : Config) (s : LogicState) (l1 l2 : List (ℚ × Op)) :
    runOps cfg s (l1 ++ l2) =
      ((runOps cfg (runOps cfg s l1).1 l2).1,
        (runOps cfg s l1).2 ++ (runOps cfg (runOps cfg s l1).1 l2).2) := by
  induction l1 generalizing s with
  | nil => simp [runOps]
  | cons x rest ih =>
    simp only [List.cons_append, runOps, List.append_eq]
    rw [ih]
    simp [List.append_assoc]

/-- C2: the attention machine starts in Focused; a distraction episode whose
not-focused calls all stay strictly below ATTENTION_CONSISTENCY_SECONDS
after the first not-focused call, ended by a focused call, emits no events
at all; a distraction episode in which some later not-focused call reaches
the consistency window emits exactly one Attention event whose description
starts with "Distracted" for the whole episode, ends in Logged_Distraction,
and the next focused call emits exactly one Attention "Focused" event. -/
theorem C2_attention_episode (cfg : Config) (t0 y0 p0 : ℚ) (l : List (ℚ × ℚ × ℚ)) :
    initState._current_attention_state = "Focused" ∧
    (∀ tT yT pT, (∀ x ∈ l, ¬ x.1 - t0 ≥ cfg.ATTENTION_CONSISTENCY_SECONDS) →
      (runOps cfg initState
        ((t0, Op.att false y0 p0) :: (attOps false l ++ [(tT, Op.att true yT pT)]))).2 = []) ∧
    ((∃ x ∈ l, x.1 - t0 ≥ cfg.ATTENTION_CONSISTENCY_SECONDS) →
      ∃ s' e, runOps cfg initState ((t0, Op.att false y0 p0) :: attOps false l) = (s', [e]) ∧
        e.event_type = "Attention" ∧ (∃ r, e.description = "Distracted" ++ r) ∧
        s'._current_attention_state = "Logged_Distraction" ∧
        (∀ t' y' p', update_attention cfg s' t' true y' p' =
          ({ s' with last_logged_attention_state := "Focused",
                     _current_attention_state := "Focused" },
           [⟨"Attention", "Focused", t'⟩]))) := by
  have hfirst := ua_focused_false cfg initState t0 y0 p0 rfl
  refine ⟨rfl, ?_, ?_⟩
  · intro tT yT pT hall
    have hshort := run_att_false_short cfg
      ({ initState with _distraction_start_time := t0,
                        _current_attention_state := "Distracted" }) rfl l hall
    have htrue := ua_distracted_true cfg
      ({ initState with _distraction_start_time := t0,
                        _current_attention_state := "Distracted" }) tT yT pT rfl
    simp only [runOps, stepOp, hfirst, runOps_append, hshort, htrue]
    simp [runOps, stepOp, htrue]
  · intro hex
    rcases run_att_false_logs_once cfg
      ({ initState with _distraction_start_time := t0,
                        _current_attention_state := "Distracted" }) rfl l hex with
      ⟨s', e, hrun, he1, he2, he3⟩
    refine ⟨s', e, ?_, he1, he2, he3, fun t' y' p' => ua_logged_true cfg s' t' y' p' he3⟩
    simp only [runOps, stepOp, hfirst, hrun]
    simp

/-- C2 witness: ATTENTION_CONSISTENCY_SECONDS = 2; the short episode stays
1 second, the long one reaches 3 seconds. -/
theorem C2_attention_episode_witness :
    (∀ x ∈ [((1 : ℚ), (0 : ℚ), (0 : ℚ))], ¬ x.1 - 0 ≥ cfgA.ATTENTION_CONSISTENCY_SECONDS) ∧
    (∃ x ∈ [((3 : ℚ), (0 : ℚ), (0 : ℚ))], x.1 - 0 ≥ cfgA.ATTENTION_CONSISTENCY_SECONDS) ∧
    (runOps cfgA initState
      ((0, Op.att false 0 0) :: (attOps false [(1, 0, 0)] ++ [(2, Op.att true 0 0)]))).2 = [] ∧
    (∃ s' e, runOps cfgA initState ((0, Op.att false 0 0) :: attOps false [(3, 0, 0)]) = (s', [e]) ∧
      e.event_type = "Attention" ∧ (∃ r, e.description = "Distracted" ++ r) ∧
      s'._current_attention_state = "Logged_Distraction" ∧
      (∀ t' y' p', update_attention cfgA s' t' true y' p' =
        ({ s' with last_logged_attention_state := "Focused",
                   _current_attention_state := "Focused" },
         [⟨"Attention", "Focused", t'⟩]))) := by
  have h1 : ∀ x ∈ [((1 : ℚ), (0 : ℚ), (0 : ℚ))], ¬ x.1 - 0 ≥ cfgA.ATTENTION_CONSISTENCY_SECONDS := by
    intro x hx
    simp only [List.mem_singleton] at hx
    subst hx
    norm_num [cfgA]
  have h2 : ∃ x ∈ [((3 : ℚ), (0 : ℚ), (0 : ℚ))], x.1 - 0 ≥ cfgA.ATTENTION_CONSISTENCY_SECONDS :=
    ⟨(3, 0, 0), List.mem_singleton.mpr rfl, by norm_num [cfgA]⟩
  exact ⟨h1, h2, (C2_attention_episode cfgA 0 0 0 [(1, 0, 0)]).2.1 2 0 0 h1,
    (C2_attention_episode cfgA 0 0 0 [(3, 0, 0)]).2.2 h2⟩

/-- Pruning only ever drops a front segment: the result is a suffix. -/
lemma pruneOld_suffix (w now : ℚ) : ∀ l : List ℚ, (pruneOld w now l).IsSuffix l := by
  intro l
  induction l with
  | nil => simp [pruneOld]
  | cons t rest ih =>
    unfold pruneOld
    by_cases h : now - t > w
    · rw [if_pos h]
      exact ih.trans (List.suffix_cons t rest)
    · rw [if_neg h]

/-- Members of the pruned deque were members before pruning. -/
lemma mem_pruneOld {w now e : ℚ} {l : List ℚ} (h : e ∈ pruneOld w now l) : e ∈ l :=
  (pruneOld_suffix w now l).subset h

/-- Pruning preserves sortedness. -/
lemma sorted_pruneOld {w now : ℚ} {l : List ℚ} (hs : l.Sorted (· ≤ ·)) :
    (pruneOld w now l).Sorted (· ≤ ·) :=
  hs.sublist (pruneOld_suffix w now l).sublist

/-- On a sorted deque, every element surviving the pruning loop lies inside
the window: the loop stops at the first young-enough element and all later
elements are at least as young. -/
lemma pruneOld_in_window {w now : ℚ} : ∀ {l : List ℚ}, l.Sorted (· ≤ ·) →
    ∀ e ∈ pruneOld w now l, now - e ≤ w := by
  intro l
  induction l with
  | nil => simp [pruneOld]
  | cons t rest ih =>
    intro hs e he
    unfold pruneOld at he
    by_cases h : now - t > w
    · rw [if_pos h] at he
      exact ih (List.sorted_cons.mp hs).2 e he
    · rw [if_neg h] at he
      rcases List.mem_cons.mp he with rfl | h2
      · exact le_of_not_lt h
      · have h3 : t ≤ e := (List.sorted_cons.mp hs).1 e h2
        have h4 : now - t ≤ w := le_of_not_lt h
        linarith

/-- Appending a new maximum keeps a deque sorted. -/
lemma sorted_append_singleton {l : List ℚ} {x : ℚ} (hs : l.Sorted (· ≤ ·))
    (hb : ∀ e ∈ l, e ≤ x) : (l ++ [x]).Sorted (· ≤ ·) := by
  refine List.pairwise_append.mpr ⟨hs, List.pairwise_singleton _ _, ?_⟩
  intro a ha b hbx
  rw [List.mem_singleton] at hbx
  subst hbx
  exact hb a ha

/-- Invariant of a timestamp deque relative to a clock bound: sorted oldest
first, all entries at or before the bound. -/
def dequeInv (b : ℚ) (l : List ℚ) : Prop :=
  l.Sorted (· ≤ ·) ∧ ∀ e ∈ l, e ≤ b

/-- The deque invariant is monotone in the clock bound. -/
lemma dequeInv_mono {b b' : ℚ} {l : List ℚ} (h : dequeInv b l) (hb : b ≤ b') :
    dequeInv b' l :=
  ⟨h.1, fun e he => le_trans (h.2 e he) hb⟩

/-- Appending the current time and pruning preserves the deque invariant
and leaves every surviving entry inside the window. -/
lemma dequeInv_push {b now : ℚ} {l : List ℚ} (h : dequeInv b l) (hb : b ≤ now)
    (w : ℚ) :
    dequeInv now (pruneOld w now (l ++ [now])) ∧
      ∀ e ∈ pruneOld w now (l ++ [now]), now - e ≤ w := by
  have hba : ∀ e ∈ l, e ≤ now := fun e he => le_trans (h.2 e he) hb
  have hsa : (l ++ [now]).Sorted (· ≤ ·) := sorted_append_singleton h.1 hba
  refine ⟨⟨sorted_pruneOld hsa, ?_⟩, pruneOld_in_window hsa⟩
  intro e he
  rcases List.mem_append.mp (mem_pruneOld he) with h1 | h2
  · exact hba e h1
  · rw [List.mem_singleton] at h2
    exact le_of_eq h2

/-- Clock-relative invariant of the whole engine state: all three timestamp
deques satisfy the deque invariant. -/
def timeInv (b : ℚ) (s : LogicState) : Prop :=
  dequeInv b s.blink_events_deque ∧ dequeInv b s.yawn_events_deque ∧
    dequeInv b s.hand_events_deque

/-- update_attention never touches the timestamp deques. -/
lemma ua_preserves_deques (cfg : Config) (s : LogicState) (now : ℚ)
    (f : Bool) (y p : ℚ) :
    (update_attention cfg s now f y p).1.blink_events_deque = s.blink_events_deque ∧
    (update_attention cfg s now f y p).1.yawn_events_deque = s.yawn_events_deque ∧
    (update_attention cfg s now f y p).1.hand_events_deque = s.hand_events_deque := by
  unfold update_attention
  split_ifs <;> exact ⟨rfl, rfl, rfl⟩

/-- One blink update preserves the state invariant at the new clock. -/
lemma timeInv_blink {b : ℚ} (cfg : Config) (s : LogicState) (now ear : ℚ)
    (h : timeInv b s) (hb : b ≤ now) :
    timeInv now (detect_and_register_blink cfg s now ear).1 := by
  obtain ⟨h1, h2, h3⟩ := h
  simp only [detect_and_register_blink]
  split_ifs <;>
    first
    | exact ⟨(dequeInv_push h1 hb _).1, dequeInv_mono h2 hb, dequeInv_mono h3 hb⟩
    | exact ⟨dequeInv_mono h1 hb, dequeInv_mono h2 hb, dequeInv_mono h3 hb⟩

/-- One yawn update preserves the state invariant at the new clock. -/
lemma timeInv_yawn {b : ℚ} (cfg : Config) (s : LogicState) (now mar : ℚ)
    (h : timeInv b s) (hb : b ≤ now) :
    timeInv now (detect_and_register_yawn cfg s now mar).1 := by
  obtain ⟨h1, h2, h3⟩ := h
  simp only [detect_and_register_yawn]
  split_ifs <;>
    first
    | exact ⟨dequeInv_mono h1 hb, (dequeInv_push h2 hb _).1, dequeInv_mono h3 hb⟩
    | exact ⟨dequeInv_mono h1 hb, dequeInv_mono h2 hb, dequeInv_mono h3 hb⟩

/-- One hand update preserves the state invariant at the new clock. -/
lemma timeInv_hand {b : ℚ} (cfg : Config) (s : LogicState) (now : ℚ)
    (r : Bool) (std : ℚ) (h : timeInv b s) (hb : b ≤ now) :
    timeInv now (register_hand_event cfg s now r std).1 := by
  obtain ⟨h1, h2, h3⟩ := h
  simp only [register_hand_event]
  split_ifs <;>
    first
    | exact ⟨dequeInv_mono h1 hb, dequeInv_mono h2 hb, (dequeInv_push h3 hb _).1⟩
    | exact ⟨dequeInv_mono h1 hb, dequeInv_mono h2 hb, dequeInv_mono h3 hb⟩

/-- Every single engine update preserves the state invariant at the new
clock reading. -/
lemma timeInv_stepOp {b : ℚ} (cfg : Config) (s : LogicState) (now : ℚ)
    (op : Op) (h : timeInv b s) (hb : b ≤ now) :
    timeInv now (stepOp cfg s now op).1 := by
  cases op with
  | att f y p =>
    have e := ua_preserves_deques cfg s now f y p
    exact ⟨by rw [stepOp, e.1]; exact dequeInv_mono h.1 hb,
      by rw [stepOp, e.2.1]; exact dequeInv_mono h.2.1 hb,
      by rw [stepOp, e.2.2]; exact dequeInv_mono h.2.2 hb⟩
  | blink ear => exact timeInv_blink cfg s now ear h hb
  | yawn mar => exact timeInv_yawn cfg s now mar h hb
  | hand r std => exact timeInv_hand cfg s now r std h hb

/-- The clock readings of an operation sequence are nondecreasing and start
no earlier than the bound. -/
def timesMono (b : ℚ) : List (ℚ × Op) → Prop
  | [] => True
  | x :: rest => b ≤ x.1 ∧ timesMono x.1 rest

/-- Clock reading after a run (the bound if the run is empty). -/
def endTime (b : ℚ) : List (ℚ × Op) → ℚ
  | [] => b
  | x :: rest => endTime x.1 rest

/-- The end clock is at least the starting bound. -/
lemma le_endTime {b : ℚ} : ∀ {ops : List (ℚ × Op)}, timesMono b ops →
    b ≤ endTime b ops := by
  intro ops
  induction ops generalizing b with
  | nil => intro _; exact le_refl b
  | cons x rest ih =>
    intro hm
    exact le_trans hm.1 (ih hm.2)

/-- A monotone run preserves the state invariant up to the end clock. -/
lemma timeInv_runOps (cfg : Config) : ∀ (ops : List (ℚ × Op)) (b : ℚ)
    (s : LogicState), timeInv b s → timesMono b ops →
    timeInv (endTime b ops) (runOps cfg s ops).1 := by
  intro ops
  induction ops with
  | nil => intro b s h _; exact h
  | cons x rest ih =>
    intro b s h hm
    exact ih x.1 _ (timeInv_stepOp cfg s x.1 x.2 h hm.1) hm.2

/-- One step either leaves a given deque untouched or (when it appends)
leaves all of its entries inside that detector's window of the step's
clock reading. -/
lemma stepOp_window {b : ℚ} (cfg : Config) (s : LogicState) (now : ℚ)
    (op : Op) (h : timeInv b s) (hb : b ≤ now) :
    ((stepOp cfg s now op).1.blink_events_deque = s.blink_events_deque ∨
      ∀ e ∈ (stepOp cfg s now op).1.blink_events_deque,
        now - e ≤ cfg.FATIGUE_BLINK_WINDOW_SECONDS) ∧
    ((stepOp cfg s now op).1.yawn_events_deque = s.yawn_events_deque ∨
      ∀ e ∈ (stepOp cfg s now op).1.yawn_events_deque,
        now - e ≤ cfg.FATIGUE_YAWN_WINDOW_SECONDS) ∧
    ((stepOp cfg s now op).1.hand_events_deque = s.hand_events_deque ∨
      ∀ e ∈ (stepOp cfg s now op).1.hand_events_deque,
        now - e ≤ cfg.HAND_MOVEMENT_WINDOW_FRAMES / cfg.VIDEO_FPS_TARGET) := by
  cases op with
  | att f y p =>
    have e := ua_preserves_deques cfg s now f y p
    exact ⟨Or.inl e.1, Or.inl e.2.1, Or.inl e.2.2⟩
  | blink ear =>
    rw [stepOp]
    simp only [detect_and_register_blink]
    split_ifs <;>
      first
      | exact ⟨Or.inr (dequeInv_push h.1 hb _).2, Or.inl rfl, Or.inl rfl⟩
      | exact ⟨Or.inl rfl, Or.inl rfl, Or.inl rfl⟩
  | yawn mar =>
    rw [stepOp]
    simp only [detect_and_register_yawn]
    split_ifs <;>
      first
      | exact ⟨Or.inl rfl, Or.inr (dequeInv_push h.2.1 hb _).2, Or.inl rfl⟩
      | exact ⟨Or.inl rfl, Or.inl rfl, Or.inl rfl⟩
  | hand r std =>
    rw [stepOp]
    simp only [register_hand_event]
    split_ifs <;>
      first
      | exact ⟨Or.inl rfl, Or.inl rfl, Or.inr (dequeInv_push h.2.2 hb _).2⟩
      | exact ⟨Or.inl rfl, Or.inl rfl, Or.inl rfl⟩

/-- The initial state satisfies the invariant at any clock bound. -/
lemma timeInv_initState (b : ℚ) : timeInv b initState :=
  ⟨⟨List.sorted_nil, by simp [initState]⟩, ⟨List.sorted_nil, by simp [initState]⟩,
    ⟨List.sorted_nil, by simp [initState]⟩⟩

/-- C9: along every run of engine updates with nondecreasing clock readings
starting from the initial state, the blink, yawn and hand-motion timestamp
deques are sorted nondecreasing and bounded by the end clock, and any
further update either leaves a deque unchanged or (after appending) leaves
all of its entries within that detector's time window of the update's clock
reading:  FATIGUE_BLINK_WINDOW_SECONDS, FATIGUE_YAWN_WINDOW_SECONDS and
HAND_MOVEMENT_WINDOW_FRAMES / VIDEO_FPS_TARGET respectively (no unbounded
growth). -/
theorem C9_timestamp_invariant (cfg : Config) (b : ℚ) (ops : List (ℚ × Op))
    (hm : timesMono b ops) :
    List.Sorted (· ≤ ·) (runOps cfg initState ops).1.blink_events_deque ∧
    List.Sorted (· ≤ ·) (runOps cfg initState ops).1.yawn_events_deque ∧
    List.Sorted (· ≤ ·) (runOps cfg initState ops).1.hand_events_deque ∧
    (∀ e ∈ (runOps cfg initState ops).1.blink_events_deque, e ≤ endTime b ops) ∧
    (∀ e ∈ (runOps cfg initState ops).1.yawn_events_deque, e ≤ endTime b ops) ∧
    (∀ e ∈ (runOps cfg initState ops).1.hand_events_deque, e ≤ endTime b ops) ∧
    (∀ now op, endTime b ops ≤ now →
      ((stepOp cfg (runOps cfg initState ops).1 now op).1.blink_events_deque
          = (runOps cfg initState ops).1.blink_events_deque ∨
        ∀ e ∈ (stepOp cfg (runOps cfg initState ops).1 now op).1.blink_events_deque,
          now - e ≤ cfg.FATIGUE_BLINK_WINDOW_SECONDS) ∧
      ((stepOp cfg (runOps cfg initState ops).1 now op).1.yawn_events_deque
          = (runOps cfg initState ops).1.yawn_events_deque ∨
        ∀ e ∈ (stepOp cfg (runOps cfg initState ops).1 now op).1.yawn_events_deque,
          now - e ≤ cfg.FATIGUE_YAWN_WINDOW_SECONDS) ∧
      ((stepOp cfg (runOps cfg initState ops).1 now op).1.hand_events_deque
          = (runOps cfg initState ops).1.hand_events_deque ∨
        ∀ e ∈ (stepOp cfg (runOps cfg initState ops).1 now op).1.hand_events_deque,
          now - e ≤ cfg.HAND_MOVEMENT_WINDOW_FRAMES / cfg.VIDEO_FPS_TARGET)) := by
  have hrun := timeInv_runOps cfg ops b initState (timeInv_initState b) hm
  exact ⟨hrun.1.1, hrun.2.1.1, hrun.2.2.1, hrun.1.2, hrun.2.1.2, hrun.2.2.2,
    fun now op hnow => stepOp_window cfg _ now op hrun hnow⟩

/-- C9 witness: a three-update monotone run followed by a further blink
update. -/
theorem C9_timestamp_invariant_witness :
    timesMono 0 [(1, Op.blink 0), (2, Op.blink 0), (3, Op.blink 1)] ∧
    (List.Sorted (· ≤ ·)
        (runOps cfgA initState [(1, Op.blink 0), (2, Op.blink 0), (3, Op.blink 1)]).1.blink_events_deque ∧
      List.Sorted (· ≤ ·)
        (runOps cfgA initState [(1, Op.blink 0), (2, Op.blink 0), (3, Op.blink 1)]).1.yawn_events_deque ∧
      List.Sorted (· ≤ ·)
        (runOps cfgA initState [(1, Op.blink 0), (2, Op.blink 0), (3, Op.blink 1)]).1.hand_events_deque ∧
      (∀ e ∈ (runOps cfgA initState [(1, Op.blink 0), (2, Op.blink 0), (3, Op.blink 1)]).1.blink_events_deque,
        e ≤ endTime 0 [(1, Op.blink 0), (2, Op.blink 0), (3, Op.blink 1)]) ∧
      (∀ e ∈ (runOps cfgA initState [(1, Op.blink 0), (2, Op.blink 0), (3, Op.blink 1)]).1.yawn_events_deque,
        e ≤ endTime 0 [(1, Op.blink 0), (2, Op.blink 0), (3, Op.blink 1)]) ∧
      (∀ e ∈ (runOps cfgA initState [(1, Op.blink 0), (2, Op.blink 0), (3, Op.blink 1)]).1.hand_events_deque,
        e ≤ endTime 0 [(1, Op.blink 0), (2, Op.blink 0), (3, Op.blink 1)]) ∧
      (∀ now op, endTime 0 [(1, Op.blink 0), (2, Op.blink 0), (3, Op.blink 1)] ≤ now →
        ((stepOp cfgA (runOps cfgA initState [(1, Op.blink 0), (2, Op.blink 0), (3, Op.blink 1)]).1 now op).1.blink_events_deque
            = (runOps cfgA initState [(1, Op.blink 0), (2, Op.blink 0), (3, Op.blink 1)]).1.blink_events_deque ∨
          ∀ e ∈ (stepOp cfgA (runOps cfgA initState [(1, Op.blink 0), (2, Op.blink 0), (3, Op.blink 1)]).1 now op).1.blink_events_deque,
            now - e ≤ cfgA.FATIGUE_BLINK_WINDOW_SECONDS) ∧
        ((stepOp cfgA (runOps cfgA initState [(1, Op.blink 0), (2, Op.blink 0), (3, Op.blink 1)]).1 now op).1.yawn_events_deque
            = (runOps cfgA initState [(1, Op.blink 0), (2, Op.blink 0), (3, Op.blink 1)]).1.yawn_events_deque ∨
          ∀ e ∈ (stepOp cfgA (runOps cfgA initState [(1, Op.blink 0), (2, Op.blink 0), (3, Op.blink 1)]).1 now op).1.yawn_events_deque,
            now - e ≤ cfgA.FATIGUE_YAWN_WINDOW_SECONDS) ∧
        ((stepOp cfgA (runOps cfgA initState [(1, Op.blink 0), (2, Op.blink 0), (3, Op.blink 1)]).1 now op).1.hand_events_deque
            = (runOps cfgA initState [(1, Op.blink 0), (2, Op.blink 0), (3, Op.blink 1)]).1.hand_events_deque ∨
          ∀ e ∈ (stepOp cfgA (runOps cfgA initState [(1, Op.blink 0), (2, Op.blink 0), (3, Op.blink 1)]).1 now op).1.hand_events_deque,
            now - e ≤ cfgA.HAND_MOVEMENT_WINDOW_FRAMES / cfgA.VIDEO_FPS_TARGET))) :=
  ⟨by norm_num [timesMono],
    C9_timestamp_invariant cfgA 0 [(1, Op.blink 0), (2, Op.blink 0), (3, Op.blink 1)]
      (by norm_num [timesMono])⟩

/-- Invariant of the raw debounce state: a set closed/open flag certifies
that its consecutive-frame counter has reached the configured minimum. -/
def rawDebounceInv (cfg : Config) (s : LogicState) : Prop :=
  (s._is_eye_closed = true → s._frames_eye_closed ≥ cfg.EAR_CONSEC_FRAMES_CLOSED) ∧
  (s._is_mouth_open = true → s._frames_mouth_open ≥ cfg.MAR_CONSEC_FRAMES_OPEN)

/-- update_attention never touches the raw debounce fields. -/
lemma ua_preserves_raw (cfg : Config) (s : LogicState) (now : ℚ) (f : Bool)
    (y p : ℚ) :
    (update_attention cfg s now f y p).1._is_eye_closed = s._is_eye_closed ∧
    (update_attention cfg s now f y p).1._frames_eye_closed = s._frames_eye_closed ∧
    (update_attention cfg s now f y p).1._is_mouth_open = s._is_mouth_open ∧
    (update_attention cfg s now f y p).1._frames_mouth_open = s._frames_mouth_open := by
  unfold update_attention
  split_ifs <;> exact ⟨rfl, rfl, rfl, rfl⟩

/-- register_hand_event never touches the raw debounce fields. -/
lemma hand_preserves_raw (cfg : Config) (s : LogicState) (now : ℚ) (r : Bool)
    (std : ℚ) :
    (register_hand_event cfg s now r std).1._is_eye_closed = s._is_eye_closed ∧
    (register_hand_event cfg s now r std).1._frames_eye_closed = s._frames_eye_closed ∧
    (register_hand_event cfg s now r std).1._is_mouth_open = s._is_mouth_open ∧
    (register_hand_event cfg s now r std).1._frames_mouth_open = s._frames_mouth_open := by
  simp only [register_hand_event]
  split_ifs <;> exact ⟨rfl, rfl, rfl, rfl⟩

/-- One blink update preserves the raw debounce invariant. -/
lemma rawInv_blink (cfg : Config) (s : LogicState) (now ear : ℚ)
    (h : rawDebounceInv cfg s) :
    rawDebounceInv cfg (detect_and_register_blink cfg s now ear).1 := by
  obtain ⟨h1, h2⟩ := h
  simp only [detect_and_register_blink]
  split_ifs with hcd hear hin hcl hfr hcnt
  · exact ⟨h1, h2⟩
  · exact ⟨fun _ => hin.2, h2⟩
  · exact ⟨fun hc => Nat.le_succ_of_le (h1 hc), h2⟩
  · exact ⟨fun hc => absurd hc Bool.false_ne_true, h2⟩
  · exact ⟨fun hc => absurd hc Bool.false_ne_true, h2⟩
  · exact ⟨fun hc => absurd hc Bool.false_ne_true, h2⟩
  · exact ⟨fun hc => absurd hc hcl, h2⟩

/-- One yawn update preserves the raw debounce invariant. -/
lemma rawInv_yawn (cfg : Config) (s : LogicState) (now mar : ℚ)
    (h : rawDebounceInv cfg s) :
    rawDebounceInv cfg (detect_and_register_yawn cfg s now mar).1 := by
  obtain ⟨h1, h2⟩ := h
  simp only [detect_and_register_yawn]
  split_ifs with hcd hmar hin hcl hfr hcnt
  · exact ⟨h1, h2⟩
  · exact ⟨h1, fun _ => hin.2⟩
  · exact ⟨h1, fun hc => Nat.le_succ_of_le (h2 hc)⟩
  · exact ⟨h1, fun hc => absurd hc Bool.false_ne_true⟩
  · exact ⟨h1, fun hc => absurd hc Bool.false_ne_true⟩
  · exact ⟨h1, fun hc => absurd hc Bool.false_ne_true⟩
  · exact ⟨h1, fun hc => absurd hc hcl⟩

/-- Every single engine update preserves the raw debounce invariant. -/
lemma rawInv_stepOp (cfg : Config) (s : LogicState) (now : ℚ) (op : Op)
    (h : rawDebounceInv cfg s) :
    rawDebounceInv cfg (stepOp cfg s now op).1 := by
  cases op with
  | att f y p =>
    have e := ua_preserves_raw cfg s now f y p
    simp only [stepOp, rawDebounceInv, e.1, e.2.1, e.2.2.1, e.2.2.2]
    exact h
  | blink ear => exact rawInv_blink cfg s now ear h
  | yawn mar => exact rawInv_yawn cfg s now mar h
  | hand r std =>
    have e := hand_preserves_raw cfg s now r std
    simp only [stepOp, rawDebounceInv, e.1, e.2.1, e.2.2.1, e.2.2.2]
    exact h

/-- Runs preserve the raw debounce invariant. -/
lemma rawInv_runOps (cfg : Config) : ∀ (ops : List (ℚ × Op)) (s : LogicState),
    rawDebounceInv cfg s → rawDebounceInv cfg (runOps cfg s ops).1 := by
  intro ops
  induction ops with
  | nil => intro s h; exact h
  | cons x rest ih =>
    intro s h
    exact ih _ (rawInv_stepOp cfg s x.1 x.2 h)

/-- C10: on every state reachable from the initial state by any sequence
of engine updates, a set eye-closed flag implies the closed-frame counter
has reached EAR_CONSEC_FRAMES_CLOSED and a set mouth-open flag implies the
open-frame counter has reached MAR_CONSEC_FRAMES_OPEN; moreover, outside a
cooldown, every open frame clears the eye flag and counter together, and
every non-open frame clears the mouth flag and counter together. -/
theorem C10_raw_debounce (cfg : Config) (ops : List (ℚ × Op)) :
    rawDebounceInv cfg (runOps cfg initState ops).1 ∧
    (∀ s : LogicState, ∀ now ear : ℚ,
      ¬ now < s.blink_cooldown_end_time → ¬ ear < cfg.EAR_THRESHOLD →
      (detect_and_register_blink cfg s now ear).1._is_eye_closed = false ∧
      (detect_and_register_blink cfg s now ear).1._frames_eye_closed = 0) ∧
    (∀ s : LogicState, ∀ now mar : ℚ,
      ¬ now < s.yawn_cooldown_end_time → ¬ mar > cfg.MAR_THRESHOLD →
      (detect_and_register_yawn cfg s now mar).1._is_mouth_open = false ∧
      (detect_and_register_yawn cfg s now mar).1._frames_mouth_open = 0) := by
  refine ⟨rawInv_runOps cfg ops initState ⟨fun hc => absurd hc Bool.false_ne_true,
    fun hm => absurd hm Bool.false_ne_true⟩, ?_, ?_⟩
  · intro s now ear hcd hear
    simp only [detect_and_register_blink, if_neg hcd, if_neg hear]
    by_cases hcl : s._is_eye_closed = true
    · by_cases hfr : s._frames_eye_closed ≥ cfg.EAR_CONSEC_FRAMES_CLOSED
      · by_cases hcnt : (pruneOld cfg.FATIGUE_BLINK_WINDOW_SECONDS now
            (s.blink_events_deque ++ [now])).length ≥ cfg.FATIGUE_BLINK_COUNT
        · simp [hcl, hfr, hcnt]
        · simp [hcl, hfr, hcnt]
      · simp [hcl, hfr]
    · simp only [Bool.not_eq_true] at hcl
      simp [hcl]
  · intro s now mar hcd hmar
    simp only [detect_and_register_yawn, if_neg hcd, if_neg hmar]
    by_cases hcl : s._is_mouth_open = true
    · by_cases hfr : s._frames_mouth_open ≥ cfg.MAR_CONSEC_FRAMES_OPEN
      · by_cases hcnt : (pruneOld cfg.FATIGUE_YAWN_WINDOW_SECONDS now
            (s.yawn_events_deque ++ [now])).length ≥ cfg.FATIGUE_YAWN_COUNT
        · simp [hcl, hfr, hcnt]
        · simp [hcl, hfr, hcnt]
      · simp [hcl, hfr]
    · simp only [Bool.not_eq_true] at hcl
      simp [hcl]

/-- C10 witness: the invariant after a concrete two-update run, and the
clearing clauses at a concrete open frame. -/
theorem C10_raw_debounce_witness :
    rawDebounceInv cfgA (runOps cfgA initState [(1, Op.blink 0), (2, Op.yawn 1)]).1 ∧
    (¬ (5 : ℚ) < initState.blink_cooldown_end_time) ∧
    (¬ (1 : ℚ) < cfgA.EAR_THRESHOLD) ∧
    ((detect_and_register_blink cfgA initState 5 1).1._is_eye_closed = false ∧
      (detect_and_register_blink cfgA initState 5 1).1._frames_eye_closed = 0) ∧
    (¬ (5 : ℚ) < initState.yawn_cooldown_end_time) ∧
    (¬ (0 : ℚ) > cfgA.MAR_THRESHOLD) ∧
    ((detect_and_register_yawn cfgA initState 5 0).1._is_mouth_open = false ∧
      (detect_and_register_yawn cfgA initState 5 0).1._frames_mouth_open = 0) :=
  ⟨(C10_raw_debounce cfgA [(1, Op.blink 0), (2, Op.yawn 1)]).1,
    by norm_num [initState], by norm_num [cfgA],
    (C10_raw_debounce cfgA []).2.1 initState 5 1 (by norm_num [initState])
      (by norm_num [cfgA]),
    by norm_num [initState], by norm_num [cfgA],
    (C10_raw_debounce cfgA []).2.2 initState 5 0 (by norm_num [initState])
      (by norm_num [cfgA])⟩

/-- euclidean_distance (landmark_utils.py lines 5-6). -/
noncomputable def euclidean_distance (p1 p2 : ℝ × ℝ) : ℝ :=
  Real.sqrt ((p1.1 - p2.1) ^ 2 + (p1.2 - p2.2) ^ 2)

/-- get_eye_aspect_ratio (landmark_utils.py lines 8-12) on a six-point eye
contour indexed 0..5. -/
noncomputable def get_eye_aspect_ratio (eye_landmarks : Fin 6 → ℝ × ℝ) : ℝ :=
  let A := euclidean_distance (eye_landmarks 1) (eye_landmarks 5)
  let B := euclidean_distance (eye_landmarks 2) (eye_landmarks 4)
  let C := euclidean_distance (eye_landmarks 0) (eye_landmarks 3)
  if C ≠ 0 then (A + B) / (2 * C) else 0

/-- get_mouth_aspect_ratio (landmark_utils.py lines 14-18), the identical
formula on the mouth contour. -/
noncomputable def get_mouth_aspect_ratio (mouth_landmarks : Fin 6 → ℝ × ℝ) : ℝ :=
  let A := euclidean_distance (mouth_landmarks 1) (mouth_landmarks 5)
  let B := euclidean_distance (mouth_landmarks 2) (mouth_landmarks 4)
  let C := euclidean_distance (mouth_landmarks 0) (mouth_landmarks 3)
  if C ≠ 0 then (A + B) / (2 * C) else 0

/-- C8: for every six-point contour, both aspect-ratio functions return
(|upper1-lower1| + |upper2-lower2|) / (2 * |corner1-corner2|) in Euclidean
point distances whenever the horizontal corner distance is nonzero (and the
denominator 2 * |corner1-corner2| is then itself nonzero, so the division
is never performed with a zero denominator), and return exactly 0 when the
horizontal corner distance is 0. -/
theorem C8_aspect_ratio_formula (pts qts : Fin 6 → ℝ × ℝ) :
    (euclidean_distance (pts 0) (pts 3) = 0 → get_eye_aspect_ratio pts = 0) ∧
    (euclidean_distance (pts 0) (pts 3) ≠ 0 →
      2 * euclidean_distance (pts 0) (pts 3) ≠ 0 ∧
      get_eye_aspect_ratio pts =
        (euclidean_distance (pts 1) (pts 5) + euclidean_distance (pts 2) (pts 4)) /
          (2 * euclidean_distance (pts 0) (pts 3))) ∧
    (euclidean_distance (qts 0) (qts 3) = 0 → get_mouth_aspect_ratio qts = 0) ∧
    (euclidean_distance (qts 0) (qts 3) ≠ 0 →
      2 * euclidean_distance (qts 0) (qts 3) ≠ 0 ∧
      get_mouth_aspect_ratio qts =
        (euclidean_distance (qts 1) (qts 5) + euclidean_distance (qts 2) (qts 4)) /
          (2 * euclidean_distance (qts 0) (qts 3))) := by
  refine ⟨?_, ?_, ?_, ?_⟩
  · intro h
    simp [get_eye_aspect_ratio, h]
  · intro h
    exact ⟨mul_ne_zero two_ne_zero h, by simp [get_eye_aspect_ratio, h]⟩
  · intro h
    simp [get_mouth_aspect_ratio, h]
  · intro h
    exact ⟨mul_ne_zero two_ne_zero h, by simp [get_mouth_aspect_ratio, h]⟩

/-- Degenerate contour: all six points coincide, so the horizontal corner
distance is 0. -/
noncomputable def ptsDeg : Fin 6 → ℝ × ℝ := fun _ => (0, 0)

/-- Contour with unit horizontal span: corner 3 at (1,0), all other points
at the origin. -/
noncomputable def ptsSep : Fin 6 → ℝ × ℝ := fun i => if i = 3 then (1, 0) else (0, 0)

/-- The degenerate contour has zero corner distance. -/
lemma dist_deg : euclidean_distance (ptsDeg 0) (ptsDeg 3) = 0 := by
  simp [euclidean_distance, ptsDeg]

/-- The separated contour has corner distance 1. -/
lemma dist_sep : euclidean_distance (ptsSep 0) (ptsSep 3) = 1 := by
  norm_num [euclidean_distance, ptsSep, Real.sqrt_one,
    show (0 : Fin 6) ≠ 3 from by decide]

/-- C8 witness: the formula theorem applied to the degenerate contour and
to the contour with unit horizontal span. -/
theorem C8_aspect_ratio_formula_witness :
    (euclidean_distance (ptsDeg 0) (ptsDeg 3) = 0 ∧
      get_eye_aspect_ratio ptsDeg = 0 ∧ get_mouth_aspect_ratio ptsDeg = 0) ∧
    (euclidean_distance (ptsSep 0) (ptsSep 3) ≠ 0 ∧
      (2 * euclidean_distance (ptsSep 0) (ptsSep 3) ≠ 0 ∧
        get_eye_aspect_ratio ptsSep =
          (euclidean_distance (ptsSep 1) (ptsSep 5) + euclidean_distance (ptsSep 2) (ptsSep 4)) /
            (2 * euclidean_distance (ptsSep 0) (ptsSep 3))) ∧
      (2 * euclidean_distance (ptsSep 0) (ptsSep 3) ≠ 0 ∧
        get_mouth_aspect_ratio ptsSep =
          (euclidean_distance (ptsSep 1) (ptsSep 5) + euclidean_distance (ptsSep 2) (ptsSep 4)) /
            (2 * euclidean_distance (ptsSep 0) (ptsSep 3)))) := by
  have hne : euclidean_distance (ptsSep 0) (ptsSep 3) ≠ 0 := by
    rw [dist_sep]; norm_num
  exact ⟨⟨dist_deg, (C8_aspect_ratio_formula ptsDeg ptsDeg).1 dist_deg,
      (C8_aspect_ratio_formula ptsDeg ptsDeg).2.2.1 dist_deg⟩,
    ⟨hne, (C8_aspect_ratio_formula ptsSep ptsSep).2.1 hne,
      (C8_aspect_ratio_formula ptsSep ptsSep).2.2.2 hne⟩⟩

end EngageTracker
